import Mathlib

/-!
Verification of the proxy-worker routing algorithm (`src/index.js`).

The worker's `fetch` handler is embedded shallowly:

* JSON values (the result of `request.json()` / `JSON.parse`) are the
  inductive `Json`, together with JavaScript truthiness (`Json.jsTruthy`),
  the `String(...)` coercion used by template literals (`Json.jsString`),
  `JSON.stringify` (`Json.stringify`) and property access (`Json.getProp`,
  which throws - modelled by `Except.error` - exactly on `null`).
* The key-value store (`env.ROUTING_KV`) is a function `String → Option String`;
  `get` returns `none` for an absent key.  JavaScript falsiness of a lookup
  result (`null` or `""`) is `strTruthy`.
* `JSON.parse` of the nested `data` string is an explicit parameter
  `parse : String → Option Json` (`none` models a parse failure); the
  platform's `fetch` to the backend is a parameter
  `backend : ForwardRequest → Except String HttpResponse`
  (`Except.error` models a rejected promise).
* The WHATWG URL constructor `new URL(input, base)` is modelled by
  `resolveUrl` for references resolved against a special-scheme base URL
  without query or fragment: scheme-bearing inputs replace the base,
  protocol-relative (`//`) inputs replace the host, path-absolute inputs
  replace the base path, other inputs resolve against the base directory; the
  path-query-fragment part is serialised with backslash-to-slash conversion,
  dot-segment removal (including `%2e` forms) and percent-encoding with the
  path, special-query and fragment percent-encode sets (UTF-8 for non-ASCII).
* The handler itself is `workerFetch`; its outermost try/catch is the match
  on the `Except` produced by `fetchInner`.  The routing steps (index.js
  lines 68-127) are `routeRequest`, with the target-key fallback
  (`lookupTargetKey`) and the path mapping (`destinationPathOf`) split out
  exactly along the source's statements.
-/

/-- JSON values, as produced by `request.json()` and `JSON.parse`.  Numbers are
modelled as integers (the worker never computes with them). -/
inductive Json where
  | null
  | bool (b : Bool)
  | num (n : Int)
  | str (s : String)
  | arr (elems : List Json)
  | obj (fields : List (String × Json))
deriving Repr

/-- JavaScript truthiness of a JSON value: `null`, `false`, `0` and `""` are
falsy, every array and object is truthy. -/
def Json.jsTruthy : Json → Bool
  | .null => false
  | .bool b => b
  | .num n => n != 0
  | .str s => s != ""
  | .arr _ => true
  | .obj _ => true

mutual

/-- The JavaScript `String(...)` coercion applied by template literals and by
`JSON.parse` to a non-string argument. -/
def Json.jsString : Json → String
  | .null => "null"
  | .bool true => "true"
  | .bool false => "false"
  | .num n => toString n
  | .str s => s
  | .arr elems => jsStringItems elems
  | .obj _ => "[object Object]"
termination_by structural j => j

/-- Array-to-string coercion (the `Array.prototype.toString` join): elements
joined with `","`, with `null` elements rendered as the empty string. -/
def jsStringItems : List Json → String
  | [] => ""
  | [.null] => ""
  | [x] => Json.jsString x
  | .null :: xs => "," ++ jsStringItems xs
  | x :: xs => Json.jsString x ++ "," ++ jsStringItems xs
termination_by structural l => l

end

/-- Escape a string for inclusion in serialised JSON (quote and backslash). -/
def escapeJson (s : String) : String :=
  String.mk (s.toList.foldr (fun c acc =>
    if c = '"' then '\\' :: '"' :: acc
    else if c = '\\' then '\\' :: '\\' :: acc
    else c :: acc) [])

mutual

/-- Model of `JSON.stringify` on parsed JSON values. -/
def Json.stringify : Json → String
  | .null => "null"
  | .bool true => "true"
  | .bool false => "false"
  | .num n => toString n
  | .str s => "\"" ++ escapeJson s ++ "\""
  | .arr elems => "[" ++ stringifyItems elems ++ "]"
  | .obj fields => "\x7b" ++ stringifyFields fields ++ "\x7d"
termination_by structural j => j

/-- Comma-separated serialisation of array elements. -/
def stringifyItems : List Json → String
  | [] => ""
  | [x] => Json.stringify x
  | x :: xs => Json.stringify x ++ "," ++ stringifyItems xs
termination_by structural l => l

/-- Comma-separated serialisation of object fields. -/
def stringifyFields : List (String × Json) → String
  | [] => ""
  | [(k, v)] => "\"" ++ escapeJson k ++ "\":" ++ Json.stringify v
  | (k, v) :: fs =>
      "\"" ++ escapeJson k ++ "\":" ++ Json.stringify v ++ "," ++ stringifyFields fs
termination_by structural l => l

end

/-- JavaScript property access `v.k`.  On `null` it throws a `TypeError`
(modelled by `Except.error`); on an object it yields the field when present and
`undefined` (modelled by `none`) otherwise; on every other value it yields
`undefined`. -/
def Json.getProp : Json → String → Except String (Option Json)
  | .null, _ => .error "Cannot read properties of null"
  | .obj fields, k => .ok ((fields.find? (fun p => p.1 == k)).map Prod.snd)
  | _, _ => .ok none

/-- Truthiness of a possibly-undefined JavaScript value (`undefined` is falsy). -/
def jsTruthyOpt : Option Json → Bool
  | none => false
  | some v => v.jsTruthy

/-- Truthiness of a KV `get` result: `null` (absent) and `""` are falsy. -/
def strTruthy : Option String → Bool
  | none => false
  | some s => s != ""

/-- Template-literal coercion of a possibly-undefined value. -/
def jsStringOpt : Option Json → String
  | none => "undefined"
  | some v => v.jsString

/-- An inbound request, as the worker observes it: `pathname` and `search` are
the components of `new URL(request.url)`, `queryCustomerId` and
`queryWarehouseId` are the results of `url.searchParams.get(...)`, and
`bodyJson` is the outcome of `await request.json()` (`none` when the body is
missing or is not valid JSON). -/
structure HttpRequest where
  method : String
  pathname : String
  search : String
  queryCustomerId : Option String
  queryWarehouseId : Option String
  bodyJson : Option Json
  headers : List (String × String)

/-- The outbound request handed to the platform `fetch` (index.js lines
121-126). -/
structure ForwardRequest where
  url : String
  method : String
  headers : List (String × String)
  body : Option String
deriving Repr, DecidableEq

/-- An HTTP response: what the backend returns and what the worker returns to
its caller. -/
structure HttpResponse where
  status : Nat
  statusText : String
  headers : List (String × String)
  body : String
deriving Repr, DecidableEq

/-- A response built by `new Response(JSON.stringify(...), { status, headers:
{ "Content-Type": "application/json" } })`; a constructed `Response` has an
empty status text. -/
def jsonResponse (status : Nat) (body : String) : HttpResponse :=
  { status := status
    statusText := ""
    headers := [("Content-Type", "application/json")]
    body := body }

/-- The serialised error body `JSON.stringify({ error: msg })`. -/
def errorBody (msg : String) : String :=
  "\x7b\"error\":\"" ++ msg ++ "\"\x7d"

/-- The serialised 500 body `JSON.stringify({ error: "Internal server error",
message: error.message })`. -/
def internalErrorBody (msg : String) : String :=
  "\x7b\"error\":\"Internal server error\",\"message\":\"" ++ msg ++ "\"\x7d"

/-- Split a character list at the first occurrence of `pat`, returning the part
before it and the part after it. -/
def findSub (pat : List Char) : List Char → Option (List Char × List Char)
  | [] => if pat.isPrefixOf ([] : List Char) then some ([], []) else none
  | c :: rest =>
      if pat.isPrefixOf (c :: rest) then some ([], (c :: rest).drop pat.length)
      else match findSub pat rest with
        | some (pre, post) => some (c :: pre, post)
        | none => none

/-- The part of a character list up to and including its last slash, when it
has one. -/
def upToLastSlash (cs : List Char) : Option (List Char) :=
  let r := cs.reverse.dropWhile (fun c => c != '/')
  if r.isEmpty then none else some r.reverse

/-- Split an absolute URL without query or fragment into its origin
(`scheme://host`) and its path; a string without `://` or without a path is
returned whole as the origin. -/
def urlParts (base : String) : List Char × List Char :=
  match findSub "://".toList base.toList with
  | none => (base.toList, [])
  | some (scheme, rest) =>
      match findSub ['/'] rest with
      | none => (base.toList, [])
      | some (host, afterSlash) =>
          (scheme ++ "://".toList ++ host, '/' :: afterSlash)

/-- The origin `scheme://host` of an absolute URL (the URL itself when it has
no path). -/
def urlOrigin (base : String) : String :=
  String.mk (urlParts base).1

/-- The scheme of an absolute URL (the part before `://`). -/
def urlScheme (base : String) : String :=
  match findSub "://".toList base.toList with
  | some (scheme, _) => String.mk scheme
  | none => base

/-- The directory of the base path used for relative resolution: the base path
up to and including its last slash (`/` when the base has no path). -/
def urlDirPath (base : String) : List Char :=
  match upToLastSlash (urlParts base).2 with
  | none => ['/']
  | some pre => pre

/-- Whether a string begins with a URL scheme (an alphabetic character followed
by scheme characters and a colon), making it an absolute URL. -/
def hasSchemeAux : List Char → Bool
  | [] => false
  | c :: rest =>
      if c = ':' then true
      else if c.isAlpha || c.isDigit || c = '+' || c = '-' || c = '.' then hasSchemeAux rest
      else false

/-- Whether a string is an absolute URL reference (starts with `scheme:`). -/
def hasScheme (s : String) : Bool :=
  match s.toList with
  | [] => false
  | c :: rest => c.isAlpha && hasSchemeAux rest

/-- A slash as the URL parser sees it: for special schemes such as `https`,
a backslash counts as a slash everywhere a slash does. -/
def slashLike (c : Char) : Bool := c == '/' || c == '\\'

/-- Split a character list at the first occurrence of the delimiter, returning
the part before it and, when the delimiter occurs, the part after it. -/
def splitFirstAt (d : Char) : List Char → List Char × Option (List Char)
  | [] => ([], none)
  | c :: rest =>
      if c = d then ([], some rest)
      else
        let r := splitFirstAt d rest
        (c :: r.1, r.2)

/-- Split a character list on every occurrence of the delimiter. -/
def splitOnChar (d : Char) : List Char → List (List Char)
  | [] => [[]]
  | c :: rest =>
      match splitOnChar d rest with
      | s :: ss => if c = d then [] :: s :: ss else (c :: s) :: ss
      | [] => [[c]]

/-- Join character-list segments with the delimiter (inverse of `splitOnChar`). -/
def joinChar (d : Char) : List (List Char) → List Char
  | [] => []
  | [s] => s
  | s :: ss => s ++ d :: joinChar d ss

/-- The C0-control percent-encode set: control characters and everything above
`~` (non-ASCII is UTF-8 percent-encoded). -/
def encodeC0 (c : Char) : Bool := c.toNat < 0x20 || 0x7e < c.toNat

/-- The query percent-encode set: C0 set plus space, `"`, `#`, `<`, `>`. -/
def encodeQuery (c : Char) : Bool :=
  encodeC0 c || c == ' ' || c == '"' || c == '#' || c == '<' || c == '>'

/-- The special-scheme query percent-encode set: the query set plus the
apostrophe (U+0027). -/
def encodeSpecialQuery (c : Char) : Bool := encodeQuery c || c == Char.ofNat 0x27

/-- The path percent-encode set: the query set plus `?` and U+0060, U+007B,
U+007D. -/
def encodePath (c : Char) : Bool :=
  encodeQuery c || c == '?' || c == Char.ofNat 0x60 || c == Char.ofNat 0x7b
    || c == Char.ofNat 0x7d

/-- The fragment percent-encode set: C0 set plus space, `"`, `<`, `>`, U+0060. -/
def encodeFragment (c : Char) : Bool :=
  encodeC0 c || c == ' ' || c == '"' || c == '<' || c == '>' || c == Char.ofNat 0x60

/-- Upper-case hexadecimal digit of a value below 16. -/
def hexDigit (n : Nat) : Char :=
  if n < 10 then Char.ofNat (0x30 + n) else Char.ofNat (0x41 + n - 10)

/-- Percent-encoding of one byte. -/
def percentByte (b : Nat) : List Char := ['%', hexDigit (b / 16), hexDigit (b % 16)]

/-- The UTF-8 bytes of a character. -/
def utf8Bytes (c : Char) : List Nat :=
  let n := c.toNat
  if n < 0x80 then [n]
  else if n < 0x800 then [0xc0 + n / 0x40, 0x80 + n % 0x40]
  else if n < 0x10000 then
    [0xe0 + n / 0x1000, 0x80 + (n / 0x40) % 0x40, 0x80 + n % 0x40]
  else
    [0xf0 + n / 0x40000, 0x80 + (n / 0x1000) % 0x40, 0x80 + (n / 0x40) % 0x40,
      0x80 + n % 0x40]

/-- One character under a percent-encode set: encoded as the percent-encoding
of its UTF-8 bytes when in the set, kept as itself otherwise. -/
def encodeChar (inSet : Char → Bool) (c : Char) : List Char :=
  if inSet c then (utf8Bytes c).foldr (fun b acc => percentByte b ++ acc) []
  else [c]

/-- Percent-encode every character of a list with the given set. -/
def encodeWith (inSet : Char → Bool) (cs : List Char) : List Char :=
  cs.foldr (fun c acc => encodeChar inSet c ++ acc) []

/-- Lower-cased segment, for recognising percent-encoded dot segments. -/
def lowerSeg (s : List Char) : List Char := s.map Char.toLower

/-- A single-dot path segment (`.` or `%2e`, case-insensitive). -/
def isSingleDot (s : List Char) : Bool :=
  lowerSeg s == ['.'] || lowerSeg s == ['%', '2', 'e']

/-- A double-dot path segment (`..` or a percent-encoded variant). -/
def isDoubleDot (s : List Char) : Bool :=
  lowerSeg s == ['.', '.'] || lowerSeg s == ['.', '%', '2', 'e'] ||
  lowerSeg s == ['%', '2', 'e', '.'] || lowerSeg s == ['%', '2', 'e', '%', '2', 'e']

/-- Dot-segment removal over the path segments, as in the URL path state: a
single-dot segment is dropped, a double-dot segment also pops the previous
segment, and either kind at the end of the path leaves a trailing slash. -/
def removeDots (acc : List (List Char)) : List (List Char) → List (List Char)
  | [] => acc.reverse
  | s :: rest =>
      if isDoubleDot s then
        if rest.isEmpty then (([] : List Char) :: acc.tail).reverse
        else removeDots acc.tail rest
      else if isSingleDot s then
        if rest.isEmpty then (([] : List Char) :: acc).reverse
        else removeDots acc rest
      else removeDots (s :: acc) rest

/-- Backslashes become slashes in the path of a special-scheme URL. -/
def slashify (cs : List Char) : List Char :=
  cs.map (fun c => if c = '\\' then '/' else c)

/-- Serialisation of an absolute path: split on slashes, remove dot segments,
percent-encode each segment with the path set, and join back (an empty path
serialises as `/`). -/
def serializeAbsPath (cs : List Char) : List Char :=
  let segs0 := splitOnChar '/' cs
  let segs := match segs0 with
    | [] :: rest => rest
    | other => other
  '/' :: joinChar '/' ((removeDots [] segs).map (encodeWith encodePath))

/-- Serialisation of a path-query-fragment reference: the fragment starts at
the first `#`, the query at the first `?` before it; the path part has its
backslashes slashified, its dot segments removed and its segments
percent-encoded with the path set, the query and fragment are percent-encoded
with their own sets. -/
def serializeRef (cs : List Char) : List Char :=
  let hf := splitFirstAt '#' cs
  let pq := splitFirstAt '?' hf.1
  serializeAbsPath (slashify pq.1)
    ++ (match pq.2 with
        | none => []
        | some q => '?' :: encodeWith encodeSpecialQuery q)
    ++ (match hf.2 with
        | none => []
        | some f => '#' :: encodeWith encodeFragment f)

/-- The authority of a protocol-relative reference: the host runs up to the
first slash, backslash, `?` or `#`. -/
def authoritySplit : List Char → List Char × List Char
  | [] => ([], [])
  | c :: rest =>
      if slashLike c || c == '?' || c == '#' then ([], c :: rest)
      else
        let r := authoritySplit rest
        (c :: r.1, r.2)

/-- Model of the WHATWG URL constructor serialisation
`new URL(input, base).toString()` for the references this worker builds
against a special-scheme base URL without query or fragment (the stored
endpoint values):

* an input with a scheme replaces the base entirely (kept as given);
* an input starting with two slash-like characters is protocol-relative: it
  takes the base scheme but carries its own lower-cased host;
* an input starting with one slash-like character replaces the base path,
  keeping only the base origin;
* any other input is resolved against the base directory;

and in the last three cases the path-query-fragment part is serialised with
backslash conversion, dot-segment removal and percent-encoding
(`serializeRef`). -/
def resolveUrl (input : String) (base : String) : String :=
  if hasScheme input then input
  else
    match input.toList with
    | [] => String.mk (splitFirstAt '#' base.toList).1
    | c1 :: rest1 =>
        if slashLike c1 then
          match rest1 with
          | c2 :: rest2 =>
              if slashLike c2 then
                let after := (c2 :: rest2).dropWhile slashLike
                let auth := authoritySplit after
                let tail := match auth.2 with
                  | [] => ['/']
                  | c :: t => if slashLike c then c :: t else '/' :: c :: t
                urlScheme base ++ "://" ++ String.mk (auth.1.map Char.toLower)
                  ++ String.mk (serializeRef tail)
              else urlOrigin base ++ String.mk (serializeRef (c1 :: c2 :: rest2))
          | [] => urlOrigin base ++ String.mk (serializeRef [c1])
        else urlOrigin base ++ String.mk (serializeRef (urlDirPath base ++ (c1 :: rest1)))

/-- Target-key resolution with fallback (index.js lines 79-92): when
`warehouseId` is truthy, `route:{customerId}:{warehouseId}` is looked up first;
whenever that step was skipped or produced a falsy value (`null` or `""`), the
variable is overwritten by the `route:{customerId}` lookup. -/
def lookupTargetKey (kv : String → Option String)
    (customerId warehouseId : Option Json) : Option String :=
  let whKey :=
    if jsTruthyOpt warehouseId then
      kv ("route:" ++ jsStringOpt customerId ++ ":" ++ jsStringOpt warehouseId)
    else none
  if strTruthy whKey then whKey
  else kv ("route:" ++ jsStringOpt customerId)

/-- Path-mapping lookup (index.js lines 111-116): `pathMapping || sourcePath`. -/
def destinationPathOf (kv : String → Option String)
    (targetKey sourcePath : String) : String :=
  let pathMapping := kv ("path:" ++ targetKey ++ ":" ++ sourcePath)
  if strTruthy pathMapping then pathMapping.getD "" else sourcePath

/-- Outcome of the routing steps: either an early error response or a built
forward request. -/
inductive RouteOutcome where
  | failure (resp : HttpResponse)
  | forward (fwd : ForwardRequest)
deriving Repr, DecidableEq

/-- The routing steps of the handler (index.js lines 68-127): validate
`customerId`, resolve the target key with fallback, resolve the endpoint,
resolve the path mapping, and build the forward request. -/
def routeRequest (kv : String → Option String) (req : HttpRequest)
    (customerId warehouseId requestBody : Option Json) : RouteOutcome :=
  if !(jsTruthyOpt customerId) then
    .failure (jsonResponse 400 (errorBody "Missing required parameter: customerId"))
  else
    let targetKey := lookupTargetKey kv customerId warehouseId
    if !(strTruthy targetKey) then
      .failure (jsonResponse 404 (errorBody
        ("No routing found for customerId: " ++
          (jsStringOpt customerId ++
            (if jsTruthyOpt warehouseId then ", warehouseId: " ++ jsStringOpt warehouseId
             else "")))))
    else
      let tk := targetKey.getD ""
      let targetEndpoint := kv ("endpoint:" ++ tk)
      if !(strTruthy targetEndpoint) then
        .failure (jsonResponse 404 (errorBody ("No endpoint found for target: " ++ tk)))
      else
        let ep := targetEndpoint.getD ""
        let destinationPath := destinationPathOf kv tk req.pathname
        .forward
          { url := resolveUrl (destinationPath ++ req.search) ep
            method := req.method
            headers := req.headers
            body :=
              if req.method == "POST" then some (Json.stringify (requestBody.getD .null))
              else none }

/-- Routing followed by the outbound call and the response relay (index.js
lines 129-136): a routing failure is returned directly, otherwise the backend
response's status, status text, headers and body are copied into the caller
response.  A rejected outbound `fetch` propagates as a thrown error. -/
def resolveAndForward (kv : String → Option String)
    (backend : ForwardRequest → Except String HttpResponse) (req : HttpRequest)
    (customerId warehouseId requestBody : Option Json) : Except String HttpResponse :=
  match routeRequest kv req customerId warehouseId requestBody with
  | .failure resp => .ok resp
  | .forward fwd =>
      match backend fwd with
      | .error e => .error e
      | .ok response =>
          .ok { status := response.status
                statusText := response.statusText
                headers := response.headers
                body := response.body }

/-- The handler body inside the outermost try (index.js lines 18-136):
parameter extraction by method, then routing and forwarding.  `Except.error`
models an uncaught thrown error.  The inner try around `JSON.parse` of the
`data` string also covers the two property reads on its result, so a `null`
parse result is classified as "Invalid JSON in data field". -/
def fetchInner (parse : String → Option Json) (kv : String → Option String)
    (backend : ForwardRequest → Except String HttpResponse) (req : HttpRequest) :
    Except String HttpResponse :=
  if req.method == "POST" then
    match req.bodyJson with
    | none => .ok (jsonResponse 400 (errorBody "Invalid or missing JSON body in request"))
    | some requestBody =>
        match requestBody.getProp "data" with
        | .error e => .error e
        | .ok dataField =>
            if !(jsTruthyOpt dataField) then
              .ok (jsonResponse 400 (errorBody "Missing data field in request body"))
            else
              match parse (jsStringOpt dataField) with
              | none => .ok (jsonResponse 400 (errorBody "Invalid JSON in data field"))
              | some parsedData =>
                  match parsedData.getProp "customerId", parsedData.getProp "warehouseId" with
                  | .ok customerId, .ok warehouseId =>
                      resolveAndForward kv backend req customerId warehouseId (some requestBody)
                  | _, _ => .ok (jsonResponse 400 (errorBody "Invalid JSON in data field"))
  else if req.method == "GET" then
    resolveAndForward kv backend req (req.queryCustomerId.map Json.str)
      (req.queryWarehouseId.map Json.str) none
  else
    .ok (jsonResponse 405 (errorBody ("Method " ++ req.method ++ " not supported")))

/-- The worker entry point: the outermost try/catch turns any thrown error into
a 500 response carrying the error message (index.js lines 138-149). -/
def workerFetch (parse : String → Option Json) (kv : String → Option String)
    (backend : ForwardRequest → Except String HttpResponse) (req : HttpRequest) :
    HttpResponse :=
  match fetchInner parse kv backend req with
  | .ok resp => resp
  | .error e => jsonResponse 500 (internalErrorBody e)

/-- The empty store. -/
def kvEmpty : String → Option String := fun _ => none

/-- A backend whose outbound call is rejected. -/
def backendFail : ForwardRequest → Except String HttpResponse :=
  fun _ => Except.error "network failure"

/-- A backend that answers 200 with the forwarded URL as body, making the
outbound URL observable to the caller. -/
def backendEcho : ForwardRequest → Except String HttpResponse :=
  fun fwd => Except.ok { status := 200, statusText := "OK", headers := [], body := fwd.url }

/-- A `JSON.parse` instance that fails on every input (consistent with the real
parser on the inputs it is applied to below, such as `""` and `"notjson"`). -/
def parseNone : String → Option Json := fun _ => none

/-- A `JSON.parse` instance that parses `"0"` to the number `0` (as the real
parser does) and fails elsewhere. -/
def parseZero : String → Option Json :=
  fun s => if s = "0" then some (Json.num 0) else none

/-- A GET request with the given query identifiers, path and query string. -/
def getReq (cust wh : Option String) (path search : String) : HttpRequest :=
  { method := "GET", pathname := path, search := search,
    queryCustomerId := cust, queryWarehouseId := wh, bodyJson := none, headers := [] }

/-- A POST request whose body parsed to the given JSON value. -/
def postReq (body : Option Json) (path : String) : HttpRequest :=
  { method := "POST", pathname := path, search := "",
    queryCustomerId := none, queryWarehouseId := none, bodyJson := body, headers := [] }

/-- A parameterless request with the given method. -/
def methodReq (m : String) : HttpRequest :=
  { method := m, pathname := "/", search := "",
    queryCustomerId := none, queryWarehouseId := none, bodyJson := none, headers := [] }

/-- Store holding an empty-string warehouse-specific route next to a customer
route. -/
def kvBoth : String → Option String := fun k =>
  if k = "route:C:W" then some ""
  else if k = "route:C" then some "T2"
  else none

/-- Store with a full three-level mapping (warehouse route, fallback route,
endpoint, one path mapping). -/
def kvMain : String → Option String := fun k =>
  if k = "route:NESTLE:GDEC-01" then some "TARGET_A"
  else if k = "route:NESTLE" then some "TARGET_B"
  else if k = "endpoint:TARGET_A" then some "https://backend.example"
  else if k = "path:TARGET_A:/api/inventory" then some "/webhook/inventory"
  else none

/-- Store whose route, endpoint and path values are all empty strings at some
keys. -/
def kvEmptyVals : String → Option String := fun k =>
  if k = "route:E:W" then some ""
  else if k = "route:E" then some "TE"
  else if k = "endpoint:TE" then some ""
  else if k = "path:TE:/p" then some ""
  else none

/-- Store that resolves fully but maps the path key to the empty string. -/
def kvPathEmpty : String → Option String := fun k =>
  if k = "route:P" then some "TP"
  else if k = "endpoint:TP" then some "https://p.example"
  else if k = "path:TP:/q" then some ""
  else none

/-- The forward request built from `kvMain` for a GET to `/x`. -/
def fwdMain : ForwardRequest :=
  { url := "https://backend.example/x", method := "GET", headers := [], body := none }

/-- A distinctive backend response. -/
def respMain : HttpResponse :=
  { status := 201, statusText := "Created", headers := [("x-test", "1")], body := "payload" }

/-- A backend constantly answering `respMain`. -/
def backendConst : ForwardRequest → Except String HttpResponse :=
  fun _ => Except.ok respMain

/-- Modelled from the spec (section 4.4): the tagged error classification, one
tag per row of the status table, carrying the request-dependent message
detail. -/
inductive ErrorClass where
  | invalidBody
  | missingDataField
  | invalidDataField
  | missingParameter
  | unsupportedMethod (method : String)
  | routingNotFound (detail : String)
  | endpointNotFound (targetKey : String)
  | internal (message : String)

/-- The status code fixed by each error class (spec section 4.4). -/
def ErrorClass.status : ErrorClass → Nat
  | .invalidBody => 400
  | .missingDataField => 400
  | .invalidDataField => 400
  | .missingParameter => 400
  | .unsupportedMethod _ => 405
  | .routingNotFound _ => 404
  | .endpointNotFound _ => 404
  | .internal _ => 500

/-- The error message fixed by each class (the strings of index.js). -/
def ErrorClass.message : ErrorClass → String
  | .invalidBody => "Invalid or missing JSON body in request"
  | .missingDataField => "Missing data field in request body"
  | .invalidDataField => "Invalid JSON in data field"
  | .missingParameter => "Missing required parameter: customerId"
  | .unsupportedMethod m => "Method " ++ m ++ " not supported"
  | .routingNotFound d => "No routing found for customerId: " ++ d
  | .endpointNotFound t => "No endpoint found for target: " ++ t
  | .internal _ => "Internal server error"

/-- The HTTP response of each error class: status from the table, JSON body
carrying the message in its `error` field (the 500 body also carries the
caught detail in a `message` field). -/
def ErrorClass.response : ErrorClass → HttpResponse
  | .internal msg => jsonResponse 500 (internalErrorBody msg)
  | e => jsonResponse e.status (errorBody e.message)

/-- When the customer id is truthy, the target key resolves to a non-empty
string and its endpoint resolves to a non-empty string, the routing steps build
the forward request from the resolved endpoint, the destination path and the
original query string. -/
lemma routeRequest_forward (kv : String → Option String) (req : HttpRequest)
    (c w b : Option Json) (tk ep : String)
    (hc : jsTruthyOpt c = true)
    (hl : lookupTargetKey kv c w = some tk) (ht : tk ≠ "")
    (he : kv ("endpoint:" ++ tk) = some ep) (hep : ep ≠ "") :
    routeRequest kv req c w b = RouteOutcome.forward
      { url := resolveUrl (destinationPathOf kv tk req.pathname ++ req.search) ep
        method := req.method
        headers := req.headers
        body := if req.method == "POST" then some (Json.stringify (b.getD .null))
                else none } := by
  simp [routeRequest, hc, hl, ht, he, hep, strTruthy]

/-- C1 counterexample: with `route:C:W` stored as the empty string and
`route:C` stored as `"T2"`, the store holds values for both keys, the
warehouse-specific lookup is neither skipped nor absent, and yet the resolved
target key is the customer-level value. -/
theorem route_priority_empty_value_cex :
    kvBoth "route:C:W" = some "" ∧ kvBoth "route:C" = some "T2"
  ∧ lookupTargetKey kvBoth (some (Json.str "C")) (some (Json.str "W")) = some "T2"
  ∧ ("T2" : String) ≠ "" :=
  ⟨by decide, by decide, by decide, by decide⟩

/-- C1 (amended): with truthy identifiers, a stored non-empty value for
`route:{customerId}:{warehouseId}` always wins; the customer-level key decides
the result exactly when the warehouse-specific lookup is skipped (falsy
`warehouseId`) or yields a falsy value (absent or empty string). -/
theorem route_priority_with_fallback :
    (∀ (kv : String → Option String) (c w : Option Json) (t : String),
        jsTruthyOpt w = true →
        kv ("route:" ++ jsStringOpt c ++ ":" ++ jsStringOpt w) = some t → t ≠ "" →
        lookupTargetKey kv c w = some t)
  ∧ (∀ (kv : String → Option String) (c w : Option Json),
        jsTruthyOpt w = false →
        lookupTargetKey kv c w = kv ("route:" ++ jsStringOpt c))
  ∧ (∀ (kv : String → Option String) (c w : Option Json),
        jsTruthyOpt w = true →
        strTruthy (kv ("route:" ++ jsStringOpt c ++ ":" ++ jsStringOpt w)) = false →
        lookupTargetKey kv c w = kv ("route:" ++ jsStringOpt c)) := by
  refine ⟨?_, ?_, ?_⟩
  · intro kv c w t hw hkv ht
    simp [lookupTargetKey, hw, hkv, strTruthy, ht]
  · intro kv c w hw
    simp [lookupTargetKey, hw, strTruthy]
  · intro kv c w hw hfalsy
    simp [lookupTargetKey, hw, hfalsy]

/-- C1 witness: the three parts of the priority rule at concrete stores. -/
theorem route_priority_with_fallback_witness :
    lookupTargetKey kvMain (some (Json.str "NESTLE")) (some (Json.str "GDEC-01")) = some "TARGET_A"
  ∧ lookupTargetKey kvMain (some (Json.str "NESTLE")) none
      = kvMain ("route:" ++ jsStringOpt (some (Json.str "NESTLE")))
  ∧ lookupTargetKey kvMain (some (Json.str "COCA")) (some (Json.str "W"))
      = kvMain ("route:" ++ jsStringOpt (some (Json.str "COCA"))) :=
  ⟨route_priority_with_fallback.1 kvMain _ _ "TARGET_A" (by decide) (by decide) (by decide),
   route_priority_with_fallback.2.1 kvMain _ none (by decide),
   route_priority_with_fallback.2.2 kvMain _ _ (by decide) (by decide)⟩

/-- C3 counterexample: a fully resolving store whose path key holds the empty
string; the store holds a value for the path key, yet the outbound path is the
original source path, not that value. -/
theorem path_mapping_empty_value_cex :
    kvPathEmpty "path:TP:/q" = some ""
  ∧ destinationPathOf kvPathEmpty "TP" "/q" = "/q"
  ∧ workerFetch parseNone kvPathEmpty backendEcho (getReq (some "P") none "/q" "")
      = { status := 200, statusText := "OK", headers := [], body := "https://p.example/q" }
  ∧ ("/q" : String) ≠ "" :=
  ⟨by decide, by decide, by decide, by decide⟩

/-- C3 (amended): a stored non-empty path mapping becomes the outbound
destination path; an absent mapping leaves the source path unchanged; and with
target and endpoint resolved, an absent mapping is not an error - the request
is still forwarded, to the URL built from the destination path. -/
theorem path_resolution :
    (∀ (kv : String → Option String) (tk sp m : String),
        kv ("path:" ++ tk ++ ":" ++ sp) = some m → m ≠ "" →
        destinationPathOf kv tk sp = m)
  ∧ (∀ (kv : String → Option String) (tk sp : String),
        kv ("path:" ++ tk ++ ":" ++ sp) = none →
        destinationPathOf kv tk sp = sp)
  ∧ (∀ (kv : String → Option String) (req : HttpRequest) (c w b : Option Json) (tk ep : String),
        jsTruthyOpt c = true →
        lookupTargetKey kv c w = some tk → tk ≠ "" →
        kv ("endpoint:" ++ tk) = some ep → ep ≠ "" →
        routeRequest kv req c w b = RouteOutcome.forward
          { url := resolveUrl (destinationPathOf kv tk req.pathname ++ req.search) ep
            method := req.method
            headers := req.headers
            body := if req.method == "POST" then some (Json.stringify (b.getD .null))
                    else none }) := by
  refine ⟨?_, ?_, ?_⟩
  · intro kv tk sp m hkv hm
    simp [destinationPathOf, hkv, strTruthy, hm]
  · intro kv tk sp hkv
    simp [destinationPathOf, hkv, strTruthy]
  · intro kv req c w b tk ep hc hl ht he hep
    exact routeRequest_forward kv req c w b tk ep hc hl ht he hep

/-- C3 witness: the mapped, unmapped and forwarded cases at a concrete store. -/
theorem path_resolution_witness :
    destinationPathOf kvMain "TARGET_A" "/api/inventory" = "/webhook/inventory"
  ∧ destinationPathOf kvMain "TARGET_A" "/other" = "/other"
  ∧ routeRequest kvMain (getReq (some "NESTLE") (some "GDEC-01") "/x" "")
      (some (Json.str "NESTLE")) (some (Json.str "GDEC-01")) none = RouteOutcome.forward
        { url := resolveUrl
            (destinationPathOf kvMain "TARGET_A" (getReq (some "NESTLE") (some "GDEC-01") "/x" "").pathname
              ++ (getReq (some "NESTLE") (some "GDEC-01") "/x" "").search) "https://backend.example"
          method := (getReq (some "NESTLE") (some "GDEC-01") "/x" "").method
          headers := (getReq (some "NESTLE") (some "GDEC-01") "/x" "").headers
          body := if (getReq (some "NESTLE") (some "GDEC-01") "/x" "").method == "POST"
                  then some (Json.stringify (Option.getD none .null)) else none } :=
  ⟨path_resolution.1 kvMain "TARGET_A" "/api/inventory" "/webhook/inventory" (by decide) (by decide),
   path_resolution.2.1 kvMain "TARGET_A" "/other" (by decide),
   path_resolution.2.2 kvMain _ _ _ none "TARGET_A" "https://backend.example"
     (by decide) (by decide) (by decide) (by decide) (by decide)⟩

/-- C9: empty-string store values behave as absent at each step - an empty
warehouse-specific route value makes the customer-level key decide the result,
an empty endpoint value produces the 404 "No endpoint found" response, and an
empty path-mapping value leaves the source path unchanged. -/
theorem empty_value_as_absent :
    (∀ (kv : String → Option String) (c w : Option Json),
        jsTruthyOpt w = true →
        kv ("route:" ++ jsStringOpt c ++ ":" ++ jsStringOpt w) = some "" →
        lookupTargetKey kv c w = kv ("route:" ++ jsStringOpt c))
  ∧ (∀ (kv : String → Option String) (req : HttpRequest) (c w b : Option Json) (tk : String),
        jsTruthyOpt c = true →
        lookupTargetKey kv c w = some tk → tk ≠ "" →
        kv ("endpoint:" ++ tk) = some "" →
        routeRequest kv req c w b = RouteOutcome.failure
          (jsonResponse 404 (errorBody ("No endpoint found for target: " ++ tk))))
  ∧ (∀ (kv : String → Option String) (tk sp : String),
        kv ("path:" ++ tk ++ ":" ++ sp) = some "" →
        destinationPathOf kv tk sp = sp) := by
  refine ⟨?_, ?_, ?_⟩
  · intro kv c w hw hkv
    simp [lookupTargetKey, hw, hkv, strTruthy]
  · intro kv req c w b tk hc hl ht he
    simp [routeRequest, hc, hl, ht, he, strTruthy]
  · intro kv tk sp hkv
    simp [destinationPathOf, hkv, strTruthy]

/-- C9 witness: the three empty-value behaviours at a concrete store. -/
theorem empty_value_as_absent_witness :
    lookupTargetKey kvEmptyVals (some (Json.str "E")) (some (Json.str "W"))
      = kvEmptyVals ("route:" ++ jsStringOpt (some (Json.str "E")))
  ∧ routeRequest kvEmptyVals (getReq (some "E") none "/p" "") (some (Json.str "E")) none none
      = RouteOutcome.failure
          (jsonResponse 404 (errorBody ("No endpoint found for target: " ++ "TE")))
  ∧ destinationPathOf kvEmptyVals "TE" "/p" = "/p" :=
  ⟨empty_value_as_absent.1 kvEmptyVals _ _ (by decide) (by decide),
   empty_value_as_absent.2.1 kvEmptyVals _ _ none none "TE" (by decide) (by decide) (by decide) (by decide),
   empty_value_as_absent.2.2 kvEmptyVals "TE" "/p" (by decide)⟩

/-- C4: the relay is the identity on backend responses - whenever routing
builds a forward request and the backend answers it, the caller observes the
backend status, status text, headers and body unchanged, both at the
routing-and-forwarding stage and through the whole handler for a GET request. -/
theorem response_relay_roundtrip :
    (∀ (kv : String → Option String) (backend : ForwardRequest → Except String HttpResponse)
        (req : HttpRequest) (c w b : Option Json) (fwd : ForwardRequest) (resp : HttpResponse),
        routeRequest kv req c w b = RouteOutcome.forward fwd →
        backend fwd = Except.ok resp →
        resolveAndForward kv backend req c w b = Except.ok
          { status := resp.status, statusText := resp.statusText,
            headers := resp.headers, body := resp.body })
  ∧ (∀ (parse : String → Option Json) (kv : String → Option String)
        (backend : ForwardRequest → Except String HttpResponse) (req : HttpRequest)
        (fwd : ForwardRequest) (resp : HttpResponse),
        req.method = "GET" →
        routeRequest kv req (req.queryCustomerId.map Json.str)
          (req.queryWarehouseId.map Json.str) none = RouteOutcome.forward fwd →
        backend fwd = Except.ok resp →
        workerFetch parse kv backend req = resp) := by
  constructor
  · intro kv backend req c w b fwd resp hroute hb
    simp [resolveAndForward, hroute, hb]
  · intro parse kv backend req fwd resp hm hroute hb
    simp [workerFetch, fetchInner, hm, resolveAndForward, hroute, hb]

/-- C4 witness: a distinctive backend response relayed field-by-field at a
concrete store and request. -/
theorem response_relay_roundtrip_witness :
    resolveAndForward kvMain backendConst (getReq (some "NESTLE") (some "GDEC-01") "/x" "")
        (some (Json.str "NESTLE")) (some (Json.str "GDEC-01")) none = Except.ok
          { status := respMain.status, statusText := respMain.statusText,
            headers := respMain.headers, body := respMain.body }
  ∧ workerFetch parseNone kvMain backendConst
      (getReq (some "NESTLE") (some "GDEC-01") "/x" "") = respMain :=
  ⟨response_relay_roundtrip.1 kvMain backendConst _ _ _ none fwdMain respMain (by decide) rfl,
   response_relay_roundtrip.2 parseNone kvMain backendConst _ fwdMain respMain rfl (by decide) rfl⟩

/-- C5 counterexample: a DELETE request with no customerId at all is answered
405 (method rejection precedes the customerId check), not 400 - refuting
"regardless of HTTP method". -/
theorem missing_customer_regardless_method_cex :
    (methodReq "DELETE").queryCustomerId = none
  ∧ workerFetch parseNone kvEmpty backendFail (methodReq "DELETE")
      = jsonResponse 405 (errorBody ("Method " ++ "DELETE" ++ " not supported"))
  ∧ (workerFetch parseNone kvEmpty backendFail (methodReq "DELETE")).status ≠ 400 :=
  ⟨by decide, by decide, by decide⟩

/-- C5 (amended): for GET requests with absent or empty `customerId`, for the
routing stage on any absent-or-empty extracted customer value, and for POST
requests whose extraction succeeds with an absent or empty `customerId`, the
result is 400 with the "Missing required parameter: customerId" body; methods
other than GET and POST are instead rejected with 405 before this check. -/
theorem missing_customer_400 :
    (∀ (parse : String → Option Json) (kv : String → Option String)
        (backend : ForwardRequest → Except String HttpResponse) (req : HttpRequest),
        req.method = "GET" →
        (req.queryCustomerId = none ∨ req.queryCustomerId = some "") →
        workerFetch parse kv backend req
          = jsonResponse 400 (errorBody "Missing required parameter: customerId"))
  ∧ (∀ (kv : String → Option String) (backend : ForwardRequest → Except String HttpResponse)
        (req : HttpRequest) (c w b : Option Json),
        (c = none ∨ c = some (Json.str "")) →
        resolveAndForward kv backend req c w b
          = Except.ok (jsonResponse 400 (errorBody "Missing required parameter: customerId")))
  ∧ (∀ (parse : String → Option Json) (kv : String → Option String)
        (backend : ForwardRequest → Except String HttpResponse) (req : HttpRequest)
        (body d pd : Json) (c w : Option Json),
        req.method = "POST" →
        req.bodyJson = some body →
        body.getProp "data" = Except.ok (some d) →
        d.jsTruthy = true →
        parse d.jsString = some pd →
        pd.getProp "customerId" = Except.ok c →
        pd.getProp "warehouseId" = Except.ok w →
        (c = none ∨ c = some (Json.str "")) →
        workerFetch parse kv backend req
          = jsonResponse 400 (errorBody "Missing required parameter: customerId")) := by
  have hcore : ∀ (kv : String → Option String)
      (backend : ForwardRequest → Except String HttpResponse)
      (req : HttpRequest) (c w b : Option Json),
      (c = none ∨ c = some (Json.str "")) →
      resolveAndForward kv backend req c w b
        = Except.ok (jsonResponse 400 (errorBody "Missing required parameter: customerId")) := by
    intro kv backend req c w b hc
    rcases hc with rfl | rfl <;>
      simp [resolveAndForward, routeRequest, jsTruthyOpt, Json.jsTruthy]
  refine ⟨?_, hcore, ?_⟩
  · intro parse kv backend req hm hq
    rcases hq with h | h <;>
      simp [workerFetch, fetchInner, hm, h,
        hcore kv backend req _ (req.queryWarehouseId.map Json.str) none (Or.inl rfl),
        hcore kv backend req _ (req.queryWarehouseId.map Json.str) none (Or.inr rfl)]
  · intro parse kv backend req body d pd c w hm hb hd htr hp hc hw hcw
    simp [workerFetch, fetchInner, hm, hb, hd, jsTruthyOpt, htr, jsStringOpt, hp, hc, hw,
      hcore kv backend req c w (some body) hcw]

/-- C5 witness: GET without customerId, the routing stage with an empty
customer string, and a POST whose `data` decodes to a value without
`customerId`, each answered 400. -/
theorem missing_customer_400_witness :
    workerFetch parseNone kvEmpty backendFail (getReq none none "/" "")
      = jsonResponse 400 (errorBody "Missing required parameter: customerId")
  ∧ resolveAndForward kvEmpty backendFail (getReq (some "") none "/" "")
        (some (Json.str "")) none none
      = Except.ok (jsonResponse 400 (errorBody "Missing required parameter: customerId"))
  ∧ workerFetch parseZero kvEmpty backendFail
        (postReq (some (Json.obj [("data", Json.str "0")])) "/p")
      = jsonResponse 400 (errorBody "Missing required parameter: customerId") :=
  ⟨missing_customer_400.1 parseNone kvEmpty backendFail _ rfl (Or.inl rfl),
   missing_customer_400.2.1 kvEmpty backendFail _ _ none none (Or.inr rfl),
   missing_customer_400.2.2 parseZero kvEmpty backendFail _
     (Json.obj [("data", Json.str "0")]) (Json.str "0") (Json.num 0) none none
     rfl rfl rfl (by decide) rfl rfl rfl (Or.inl rfl)⟩

/-- C6: any method other than GET and POST is answered 405 with a body naming
the method; the conclusion does not depend on the store, so the response is
independent of the store contents. -/
theorem unsupported_method_405 :
    ∀ (parse : String → Option Json) (kv : String → Option String)
      (backend : ForwardRequest → Except String HttpResponse) (req : HttpRequest),
      req.method ≠ "GET" → req.method ≠ "POST" →
      workerFetch parse kv backend req
        = jsonResponse 405 (errorBody ("Method " ++ req.method ++ " not supported")) := by
  intro parse kv backend req hg hp
  simp [workerFetch, fetchInner, hp, hg]

/-- C6 witness: a DELETE request is answered 405 naming the method. -/
theorem unsupported_method_405_witness :
    workerFetch parseNone kvEmpty backendFail (methodReq "DELETE")
      = jsonResponse 405 (errorBody ("Method " ++ "DELETE" ++ " not supported")) :=
  unsupported_method_405 parseNone kvEmpty backendFail (methodReq "DELETE")
    (by decide) (by decide)

/-- C7 counterexample: a POST body that parses to the JSON literal `null` has
no `data` field yet is answered 500, not 400 (refuting the first half as
universally stated); and a POST whose `data` is the empty string - a string
whose JSON parse fails - is answered with the "Missing data field" body, not
the "Invalid JSON in data field" one (refuting the second half). -/
theorem post_body_classification_cex :
    workerFetch parseNone kvEmpty backendFail (postReq (some Json.null) "/p")
      = jsonResponse 500 (internalErrorBody "Cannot read properties of null")
  ∧ (workerFetch parseNone kvEmpty backendFail (postReq (some Json.null) "/p")).status ≠ 400
  ∧ parseNone "" = none
  ∧ workerFetch parseNone kvEmpty backendFail
        (postReq (some (Json.obj [("data", Json.str "")])) "/p")
      = jsonResponse 400 (errorBody "Missing data field in request body")
  ∧ errorBody "Missing data field in request body"
      ≠ errorBody "Invalid JSON in data field" :=
  ⟨by decide, by decide, rfl, by decide, by decide⟩

/-- C7 (amended): for a POST whose body parses to a value on which field access
succeeds (any value but `null`), an absent `data` field is answered 400
"Missing data field in request body"; and when `data` is a non-empty string
whose JSON parse fails, the answer is 400 "Invalid JSON in data field". -/
theorem post_body_classification :
    (∀ (parse : String → Option Json) (kv : String → Option String)
        (backend : ForwardRequest → Except String HttpResponse) (req : HttpRequest)
        (body : Json),
        req.method = "POST" → req.bodyJson = some body →
        body.getProp "data" = Except.ok none →
        workerFetch parse kv backend req
          = jsonResponse 400 (errorBody "Missing data field in request body"))
  ∧ (∀ (parse : String → Option Json) (kv : String → Option String)
        (backend : ForwardRequest → Except String HttpResponse) (req : HttpRequest)
        (body : Json) (s : String),
        req.method = "POST" → req.bodyJson = some body →
        body.getProp "data" = Except.ok (some (Json.str s)) → s ≠ "" →
        parse s = none →
        workerFetch parse kv backend req
          = jsonResponse 400 (errorBody "Invalid JSON in data field")) := by
  constructor
  · intro parse kv backend req body hm hb hd
    simp [workerFetch, fetchInner, hm, hb, hd, jsTruthyOpt]
  · intro parse kv backend req body s hm hb hd hs hp
    simp [workerFetch, fetchInner, hm, hb, hd, jsTruthyOpt, Json.jsTruthy, hs,
      jsStringOpt, Json.jsString, hp]

/-- C7 witness: a POST without a `data` field, and a POST whose non-empty
`data` string fails to parse, each answered with its 400 classification. -/
theorem post_body_classification_witness :
    workerFetch parseNone kvEmpty backendFail
        (postReq (some (Json.obj [("x", Json.num 1)])) "/p")
      = jsonResponse 400 (errorBody "Missing data field in request body")
  ∧ workerFetch parseNone kvEmpty backendFail
        (postReq (some (Json.obj [("data", Json.str "notjson")])) "/p")
      = jsonResponse 400 (errorBody "Invalid JSON in data field") :=
  ⟨post_body_classification.1 parseNone kvEmpty backendFail _
     (Json.obj [("x", Json.num 1)]) rfl rfl rfl,
   post_body_classification.2 parseNone kvEmpty backendFail _
     (Json.obj [("data", Json.str "notjson")]) "notjson" rfl rfl rfl (by decide) rfl⟩

/-- C10: a POST whose body is the JSON literal `null` is not given a 400
classification - the `data` field access throws, the outermost boundary
catches it, and the caller receives the 500 internal-error response. -/
theorem null_body_500 :
    ∀ (parse : String → Option Json) (kv : String → Option String)
      (backend : ForwardRequest → Except String HttpResponse) (req : HttpRequest),
      req.method = "POST" → req.bodyJson = some Json.null →
      workerFetch parse kv backend req
        = jsonResponse 500 (internalErrorBody "Cannot read properties of null")
      ∧ (workerFetch parse kv backend req).status ≠ 400 := by
  intro parse kv backend req hm hb
  have h : workerFetch parse kv backend req
      = jsonResponse 500 (internalErrorBody "Cannot read properties of null") := by
    simp [workerFetch, fetchInner, hm, hb, Json.getProp]
  exact ⟨h, by rw [h]; simp [jsonResponse]⟩

/-- C10 witness: a concrete POST with body `null` answered 500. -/
theorem null_body_500_witness :
    workerFetch parseNone kvEmpty backendFail (postReq (some Json.null) "/x")
      = jsonResponse 500 (internalErrorBody "Cannot read properties of null")
  ∧ (workerFetch parseNone kvEmpty backendFail (postReq (some Json.null) "/x")).status ≠ 400 :=
  null_body_500 parseNone kvEmpty backendFail (postReq (some Json.null) "/x") rfl rfl

/-- Once routing has built a forward request, the stage reduces to the match
on the backend answer. -/
lemma resolveAndForward_forward_eq (kv : String → Option String)
    (backend : ForwardRequest → Except String HttpResponse) (req : HttpRequest)
    (c w b : Option Json) (fwd : ForwardRequest)
    (hroute : routeRequest kv req c w b = RouteOutcome.forward fwd) :
    resolveAndForward kv backend req c w b =
      match backend fwd with
      | Except.error e => Except.error e
      | Except.ok response =>
          Except.ok { status := response.status, statusText := response.statusText,
                      headers := response.headers, body := response.body } := by
  unfold resolveAndForward
  rw [hroute]

/-- Every run of the routing-and-forwarding stage is either a relayed backend
response, a classified error response, or a propagated thrown error. -/
lemma resolveAndForward_cases (kv : String → Option String)
    (backend : ForwardRequest → Except String HttpResponse) (req : HttpRequest)
    (c w b : Option Json) :
    (∃ fwd resp, backend fwd = Except.ok resp ∧
        resolveAndForward kv backend req c w b = Except.ok resp)
  ∨ (∃ e : ErrorClass, resolveAndForward kv backend req c w b = Except.ok e.response)
  ∨ (∃ m, resolveAndForward kv backend req c w b = Except.error m) := by
  by_cases hc : jsTruthyOpt c = true
  · rcases hL : lookupTargetKey kv c w with _ | tk
    · right; left
      refine ⟨ErrorClass.routingNotFound
        (jsStringOpt c ++
          (if jsTruthyOpt w then ", warehouseId: " ++ jsStringOpt w else "")), ?_⟩
      simp [resolveAndForward, routeRequest, hc, hL, strTruthy, ErrorClass.response,
        ErrorClass.status, ErrorClass.message]
    · by_cases htk : tk = ""
      · subst htk
        right; left
        refine ⟨ErrorClass.routingNotFound
          (jsStringOpt c ++
            (if jsTruthyOpt w then ", warehouseId: " ++ jsStringOpt w else "")), ?_⟩
        simp [resolveAndForward, routeRequest, hc, hL, strTruthy, ErrorClass.response,
          ErrorClass.status, ErrorClass.message]
      · rcases hE : kv ("endpoint:" ++ tk) with _ | ep
        · right; left
          refine ⟨ErrorClass.endpointNotFound tk, ?_⟩
          simp [resolveAndForward, routeRequest, hc, hL, strTruthy, htk, hE,
            ErrorClass.response, ErrorClass.status, ErrorClass.message]
        · by_cases hep : ep = ""
          · subst hep
            right; left
            refine ⟨ErrorClass.endpointNotFound tk, ?_⟩
            simp [resolveAndForward, routeRequest, hc, hL, strTruthy, htk, hE,
              ErrorClass.response, ErrorClass.status, ErrorClass.message]
          · obtain ⟨fwd0, hroute⟩ :
                ∃ fwd0, routeRequest kv req c w b = RouteOutcome.forward fwd0 :=
              ⟨_, routeRequest_forward kv req c w b tk ep hc hL htk hE hep⟩
            have hra := resolveAndForward_forward_eq kv backend req c w b fwd0 hroute
            rcases hB : backend fwd0 with m | resp
            · right; right
              exact ⟨m, by rw [hra, hB]⟩
            · left
              exact ⟨fwd0, resp, hB, by rw [hra, hB]⟩
  · right; left
    refine ⟨ErrorClass.missingParameter, ?_⟩
    simp only [Bool.not_eq_true] at hc
    simp [resolveAndForward, routeRequest, hc, ErrorClass.response, ErrorClass.status,
      ErrorClass.message]

/-- Every run of the handler body is either a relayed backend response, a
classified error response, or a thrown error reaching the outer boundary. -/
lemma fetchInner_cases (parse : String → Option Json) (kv : String → Option String)
    (backend : ForwardRequest → Except String HttpResponse) (req : HttpRequest) :
    (∃ fwd resp, backend fwd = Except.ok resp ∧
        fetchInner parse kv backend req = Except.ok resp)
  ∨ (∃ e : ErrorClass, fetchInner parse kv backend req = Except.ok e.response)
  ∨ (∃ m, fetchInner parse kv backend req = Except.error m) := by
  by_cases hP : req.method == "POST"
  · rcases hb : req.bodyJson with _ | body
    · right; left
      exact ⟨ErrorClass.invalidBody, by
        simp [fetchInner, hP, hb, ErrorClass.response, ErrorClass.status, ErrorClass.message]⟩
    · rcases hd : body.getProp "data" with e | d
      · right; right
        exact ⟨e, by simp [fetchInner, hP, hb, hd]⟩
      · by_cases hdt : jsTruthyOpt d = true
        · rcases hp : parse (jsStringOpt d) with _ | pd
          · right; left
            exact ⟨ErrorClass.invalidDataField, by
              simp [fetchInner, hP, hb, hd, hdt, hp, ErrorClass.response, ErrorClass.status,
                ErrorClass.message]⟩
          · rcases hcc : pd.getProp "customerId" with e1 | c
            · right; left
              exact ⟨ErrorClass.invalidDataField, by
                simp [fetchInner, hP, hb, hd, hdt, hp, hcc, ErrorClass.response,
                  ErrorClass.status, ErrorClass.message]⟩
            · rcases hww : pd.getProp "warehouseId" with e2 | w
              · right; left
                exact ⟨ErrorClass.invalidDataField, by
                  simp [fetchInner, hP, hb, hd, hdt, hp, hcc, hww, ErrorClass.response,
                    ErrorClass.status, ErrorClass.message]⟩
              · have hF : fetchInner parse kv backend req
                    = resolveAndForward kv backend req c w (some body) := by
                  simp [fetchInner, hP, hb, hd, hdt, hp, hcc, hww]
                rw [hF]
                exact resolveAndForward_cases kv backend req c w (some body)
        · right; left
          exact ⟨ErrorClass.missingDataField, by
            simp [fetchInner, hP, hb, hd, hdt, ErrorClass.response, ErrorClass.status,
              ErrorClass.message]⟩
  · by_cases hG : req.method == "GET"
    · have hF : fetchInner parse kv backend req
          = resolveAndForward kv backend req (req.queryCustomerId.map Json.str)
              (req.queryWarehouseId.map Json.str) none := by
        simp [fetchInner, hP, hG]
      rw [hF]
      exact resolveAndForward_cases kv backend req _ _ none
    · right; left
      exact ⟨ErrorClass.unsupportedMethod req.method, by
        simp [fetchInner, hP, hG, ErrorClass.response, ErrorClass.status, ErrorClass.message]⟩

/-- C8: every handler result is either a backend response relayed unchanged or
the response of one error class; and each class response has the fixed status
of the table, the `application/json` content type, and a JSON body whose
`error` field carries the class message (the internal class additionally
carries the caught detail in a `message` field). -/
theorem failure_response_shape :
    (∀ (parse : String → Option Json) (kv : String → Option String)
        (backend : ForwardRequest → Except String HttpResponse) (req : HttpRequest),
        (∃ fwd resp, backend fwd = Except.ok resp ∧ workerFetch parse kv backend req = resp)
      ∨ (∃ e : ErrorClass, workerFetch parse kv backend req = e.response))
  ∧ (∀ e : ErrorClass,
        (ErrorClass.response e).statusText = ""
      ∧ (ErrorClass.response e).headers = [("Content-Type", "application/json")]
      ∧ (ErrorClass.response e).status = e.status
      ∧ ((ErrorClass.response e).body = errorBody e.message
          ∨ ∃ d, e = ErrorClass.internal d ∧ (ErrorClass.response e).body = internalErrorBody d
              ∧ e.message = "Internal server error")) := by
  constructor
  · intro parse kv backend req
    rcases fetchInner_cases parse kv backend req with ⟨fwd, resp, hB, hF⟩ | ⟨e, hF⟩ | ⟨m, hF⟩
    · left
      exact ⟨fwd, resp, hB, by simp [workerFetch, hF]⟩
    · right
      exact ⟨e, by simp [workerFetch, hF]⟩
    · right
      exact ⟨ErrorClass.internal m, by
        simp [workerFetch, hF, ErrorClass.response]⟩
  · intro e
    cases e <;>
      simp [ErrorClass.response, ErrorClass.status, ErrorClass.message, jsonResponse]
